import Mathlib

/-!
Verification development for bw-tui, a curses front-end over the Bitwarden CLI.

The definitions below are a shallow embedding of the Python sources:
  * `src/bw_tui/bitwarden.py` — session store and vault client (`BitwardenCLI`),
  * `src/bw_tui/ui.py`       — clipboard chain (`ClipboardManager`) and the
    interactive controller (`MainWindow`).
Times are modelled as integers (epoch seconds); subprocess invocations are
modelled by oracle parameters giving their outcome; the on-disk session file is
modelled by an explicit store value threaded through the operations.
-/

namespace BwTui

/-- Epoch time in seconds (Python `time.time()`, modelled as an integer). -/
abbrev Time := Int

/-- `BitwardenCLI.SESSION_TIMEOUT = 10 * 60` (bitwarden.py line 21). -/
def SESSION_TIMEOUT : Int := 10 * 60

/-- The value found under the `"timestamp"` key of the session file after
`json.load`: either a JSON number, or a value of some other JSON type (string,
list, ...), in which case Python's `current_time - timestamp` raises an
uncaught `TypeError`.  A missing key is `session_data.get('timestamp', 0)`,
i.e. `num 0`, supplied at construction. -/
inductive TsVal
  | num (t : Int)
  | nonNum
deriving DecidableEq

/-- Content of the session file as seen by `_load_session` (bitwarden.py
lines 56-78):
  * `badParse` — `json.load` raises `JSONDecodeError`, or reading raises
    `OSError`; both are caught and lead to `_cleanup_session_file`;
  * `nonDict` — the file is valid JSON but not an object, so
    `session_data.get('session_key')` raises an uncaught `AttributeError`;
  * `record`  — a JSON object; `session_key` is `.get('session_key')`
    (`none` when the key is absent or null) and `timestamp` is
    `.get('timestamp', 0)`. -/
inductive FileContent
  | badParse
  | nonDict
  | record (session_key : Option String) (timestamp : TsVal)
deriving DecidableEq

/-- The on-disk session store: `none` when `~/.bw-tui-session.json` is absent. -/
structure Store where
  file : Option FileContent
deriving DecidableEq

/-- Python truthiness of the optional `session_key` string: `None` and `""`
are falsy, every other string is truthy. -/
def truthy : Option String → Bool
  | none => false
  | some s => s ≠ ""

/-- `BitwardenCLI._cleanup_session_file` (bitwarden.py lines 99-106): remove
the session file if it exists. -/
def _cleanup_session_file (_st : Store) : Store := ⟨none⟩

/-- Result of a `_load_session` run that did not raise: the resulting
in-memory `_session_key` and the resulting on-disk store. -/
structure LoadOk where
  sessionKey : Option String
  store : Store
deriving DecidableEq

/-- Result of running `_load_session`: either a normal return, or an uncaught
exception escaping the method (which in the real program aborts
`BitwardenCLI.__init__` and hence program startup). -/
inductive LoadResult
  | ok (r : LoadOk)
  | crash
deriving DecidableEq

/-- `BitwardenCLI._load_session` (bitwarden.py lines 56-78), evaluated at
time `now` against store `st`.  `.crash` models an exception escaping the
method (the `except` clause catches only `JSONDecodeError`, `KeyError` and
`OSError`, so the `AttributeError` from a non-object JSON value and the
`TypeError` from a non-numeric timestamp propagate, leaving the file in
place). -/
def _load_session (now : Time) (st : Store) : LoadResult :=
  match st.file with
  | none => .ok ⟨none, st⟩
  | some .badParse => .ok ⟨none, _cleanup_session_file st⟩
  | some .nonDict => .crash
  | some (.record key ts) =>
    match ts with
    | .nonNum => .crash
    | .num t =>
      if now - t < SESSION_TIMEOUT ∧ truthy key then .ok ⟨key, st⟩
      else .ok ⟨none, _cleanup_session_file st⟩

/-- In-memory client state relevant to the session: `_session_key` plus the
on-disk store it operates on. -/
structure Client where
  sessionKey : Option String
  store : Store
deriving DecidableEq

/-- `BitwardenCLI._save_session` (bitwarden.py lines 80-97), happy path:
writes `{session_key, timestamp: now}` and sets `_session_key`.  (On an
`OSError` the method writes nothing and — since the assignment sits inside the
`try` — also leaves `_session_key` unchanged; that I/O-failure path is outside
this model.) -/
def _save_session (now : Time) (session_key : String) (_c : Client) : Client :=
  ⟨some session_key, ⟨some (.record (some session_key) (.num now))⟩⟩

/-- `BitwardenCLI.clear_session` (bitwarden.py lines 112-115): drop the
in-memory key and delete the file. -/
def clear_session (c : Client) : Client := ⟨none, _cleanup_session_file c.store⟩

/-- `BitwardenCLI.lock` (bitwarden.py lines 245-270).  `subOk` is the outcome
of running `bw lock` with `check=True`: on exit 0 the method clears the
session and returns `True`; on `CalledProcessError` it logs and returns
`False` **without** touching the session. -/
def lock (subOk : Bool) (c : Client) : Bool × Client :=
  if subOk then (true, clear_session c)
  else (false, c)

/-- `BitwardenCLI.lock_vault` (bitwarden.py lines 117-147), the older unused
sibling of `lock`: it clears the local session on success **and** on
`CalledProcessError` (comment in source: "Even if CLI lock fails, clear our
session"), returning `True` in both cases. -/
def lock_vault (subOk : Bool) (c : Client) : Bool × Client :=
  if subOk then (true, clear_session c)
  else (true, clear_session c)

/-- Outcome of the `bw status` subprocess as consumed by `is_unlocked`
(bitwarden.py lines 194-211): `fail` is a caught `CalledProcessError`,
`JSONDecodeError` or `KeyError`; `parsed s` is `status_data.get("status")`
(`none` when the field is absent). -/
inductive StatusOutcome
  | fail
  | parsed (status : Option String)
deriving DecidableEq

/-- `BitwardenCLI.is_unlocked` (bitwarden.py lines 182-211).  Returns
`(result, madeSubprocessCall)`: when `self._session_key` is truthy the method
returns `True` immediately with no subprocess call; otherwise it runs
`bw status` and returns whether the parsed status equals `"unlocked"`, with
any caught failure yielding `False`. -/
def is_unlocked (c : Client) (st : StatusOutcome) : Bool × Bool :=
  if truthy c.sessionKey then (true, false)
  else
    (match st with
     | .fail => false
     | .parsed s => s = some ("unlocked"), true)

/-- Modelled from the spec: a Session `{token, issuedAt}` is valid at `now`
iff the token is non-empty and `now - issuedAt < TTL` (spec §3). -/
def validSession (token : String) (issuedAt now : Time) : Bool :=
  (token ≠ "" : Bool) && decide (now - issuedAt < SESSION_TIMEOUT)

/-! ### Clipboard chain (`ClipboardManager`, ui.py lines 18-112) -/

/-- The five delivery mechanisms, in the order of the `methods` list in
`ClipboardManager.copy_to_clipboard` (ui.py lines 30-36). -/
inductive Mechanism
  | pyperclip
  | xclip
  | xsel
  | wlCopy
  | termuxClipboard
deriving DecidableEq

/-- The `methods` list of `copy_to_clipboard` (ui.py lines 30-36), in source
order. -/
def methods : List Mechanism :=
  [.pyperclip, .xclip, .xsel, .wlCopy, .termuxClipboard]

/-- Outcome of one `_try_*` helper on the current environment:
  * `success`   — the helper returned `True`;
  * `failFalse` — the helper caught its own exception (tool absent, non-zero
    exit, API error) and returned `False`;
  * `failRaise` — the helper raised one of `OSError`, `SubprocessError`,
    `ValueError`, swallowed by the loop in `copy_to_clipboard`. -/
inductive MechResult
  | success
  | failFalse
  | failRaise
deriving DecidableEq

/-- The `for method in methods` loop of `copy_to_clipboard` (ui.py lines
38-48) over a remaining list of mechanisms: returns the overall result and
the list of mechanisms actually attempted, in order. -/
def tryChain (outcome : Mechanism → MechResult) : List Mechanism → Bool × List Mechanism
  | [] => (false, [])
  | m :: rest =>
    if outcome m = .success then (true, [m])
    else
      let r := tryChain outcome rest
      (r.1, m :: r.2)

/-- `ClipboardManager.copy_to_clipboard` (ui.py lines 24-48): try the fixed
`methods` chain; `outcome` gives each mechanism's behaviour on this
environment (the secret text itself does not influence control flow). -/
def copy_to_clipboard (outcome : Mechanism → MechResult) : Bool × List Mechanism :=
  tryChain outcome methods

/-! ### Interactive controller (`MainWindow`, ui.py lines 115-577) -/

/-- A vault entry's `login` sub-record. -/
structure Login where
  username : Option String
  password : Option String
deriving DecidableEq

/-- A vault entry as handled by the UI: `name` is `item.get("name")` (absent
or null keys give `none`), `login` is `item.get("login")` (an absent or null
login gives `none`; note that in Python an *empty* login dict is also falsy,
which for the operations modelled here behaves the same as an absent one
because all its fields are then absent). -/
structure VaultItem where
  name : Option String
  login : Option Login
deriving DecidableEq

/-- UI mode (`self.mode`, ui.py line 135): `"browse"`, `"search"` or
`"unlock"`. -/
inductive Mode
  | browse
  | search
  | unlock
deriving DecidableEq

/-- The `MainWindow` state touched by input handling (ui.py lines 131-138).
`current_selection` is a Python int, modelled as `Int`. -/
structure UIState where
  items : List VaultItem
  filtered_items : List VaultItem
  current_selection : Int
  search_query : String
  mode : Mode
  status_message : String
  status_color : Nat
  status_message_time : Time
deriving DecidableEq

/-- Python `str.lower()` on a character list (ASCII case folding, which is
the fragment exercised by `Char.toLower`). -/
def pyLower (cs : List Char) : List Char := cs.map Char.toLower

/-- Python `hay.find(needle) != -1`: `needle` occurs in `hay` as a contiguous
substring (the empty needle is found at index 0). -/
def strHas (needle : List Char) : List Char → Bool
  | [] => needle.isEmpty
  | c :: cs => needle.isPrefixOf (c :: cs) || strHas needle cs

/-- The membership test of the list comprehension in
`MainWindow._filter_items` (ui.py lines 553-558): the lowered name contains
`query_lower`, or the login is truthy and the lowered username (with `None`
read as `""`) contains `query_lower`. -/
def itemMatches (query_lower : List Char) (item : VaultItem) : Bool :=
  strHas query_lower (pyLower (item.name.getD ("")).data)
  || (match item.login with
      | some l => strHas query_lower (pyLower (l.username.getD ("")).data)
      | none => false)

/-- `MainWindow._filter_items` (ui.py lines 547-560): recompute
`filtered_items` from `items` and `search_query`, then reset
`current_selection` to 0. -/
def _filter_items (s : UIState) : UIState :=
  if s.search_query = "" then
    { s with filtered_items := s.items, current_selection := 0 }
  else
    { s with
        filtered_items := s.items.filter (itemMatches (pyLower s.search_query.data)),
        current_selection := 0 }

/-- `MainWindow._load_items` (ui.py lines 357-364): fetch `items`, set
`filtered_items` to a copy, reset `current_selection` to 0. -/
def _load_items (items : List VaultItem) (s : UIState) : UIState :=
  { s with items := items, filtered_items := items, current_selection := 0 }

/-- The state-changing part of `MainWindow._draw_status` (ui.py lines
435-441): a non-empty status message older than 3 seconds is cleared. -/
def _draw_status (now : Time) (s : UIState) : UIState :=
  if s.status_message ≠ "" ∧ now - s.status_message_time > 3 then
    { s with status_message := "", status_color := 0, status_message_time := 0 }
  else s

/-- `MainWindow._draw_ui` (ui.py lines 372-378): header and item drawing do
not change state; the only state change is the expiry check in
`_draw_status`. -/
def _draw_ui (now : Time) (s : UIState) : UIState := _draw_status now s

/-- `MainWindow._copy_password` (ui.py lines 562-577), reduced to the secret
it hands to the clipboard: `none` when the guard at line 564 bails out
(empty filtered list or selection past the end) or when the selected item has
no truthy `login.password`; the rest of the method only draws.  (Negative
selections, which Python would index from the end, are excluded by the
selection invariant proved below.) -/
def _copy_password (s : UIState) : Option String :=
  if s.filtered_items = [] ∨ s.current_selection ≥ (s.filtered_items.length : Int) then
    none
  else
    match s.filtered_items.get? s.current_selection.toNat with
    | none => none
    | some item =>
      match item.login with
      | some l =>
        match l.password with
        | some p => if p ≠ "" then some p else none
        | none => none
      | none => none

/-- One `MainWindow._handle_input` dispatch (ui.py lines 483-545): the
resulting state, whether `KeyboardInterrupt` was raised (terminating the main
loop), and whether `_draw_ui` ran. -/
structure InputResult where
  state : UIState
  quit : Bool
  redrew : Bool
deriving DecidableEq

/-- Python `s[:-1]`: drop the last character (identity on `""`). -/
def pyDropLast (s : String) : String := ⟨s.data.dropLast⟩

/-- `MainWindow._handle_input` (ui.py lines 483-545).  `ch` is the curses key
code returned by `getch()` (`-1` on timeout; `ord('q') = 113`, `ESC = 27`,
`ord('s') = 115`, `ord('/') = 47`, `ord('c') = 99`, `KEY_ENTER = 343`,
`LF = 10`, `ord('l') = 108`, `KEY_UP = 259`, `KEY_DOWN = 258`,
`KEY_BACKSPACE = 263`, `DEL = 127`).  `lockOk` is the outcome of
`self.bw_cli.lock()` when the lock key is pressed; `now` is the current time
used by the status-expiry check inside `_draw_ui`.  The copy branch changes
no modelled state (`_copy_password` draws via `_show_status` only) but still
redraws. -/
def _handle_input (lockOk : Bool) (now : Time) (ch : Int) (s : UIState) : InputResult :=
  if ch = -1 then ⟨s, false, false⟩
  else if ch = 113 ∧ s.mode ≠ .search then ⟨s, true, false⟩
  else if ch = 27 then
    ⟨_draw_ui now (_filter_items { s with search_query := "", mode := .browse }), false, true⟩
  else if ch = 115 ∨ ch = 47 then ⟨_draw_ui now { s with mode := .search }, false, true⟩
  else if ch = 99 ∨ ch = 343 ∨ ch = 10 then ⟨_draw_ui now s, false, true⟩
  else if ch = 108 then
    if lockOk then
      ⟨{ s with status_message := "Vault locked successfully - exiting",
                status_color := 2, status_message_time := now }, true, false⟩
    else
      ⟨_draw_ui now { s with status_message := "Failed to lock vault",
                             status_color := 3, status_message_time := now }, false, true⟩
  else if ch = 259 then
    ⟨_draw_ui now (if s.filtered_items ≠ [] then
        { s with current_selection := max 0 (s.current_selection - 1) } else s),
     false, true⟩
  else if ch = 258 then
    ⟨_draw_ui now (if s.filtered_items ≠ [] then
        { s with current_selection := min ((s.filtered_items.length : Int) - 1) (s.current_selection + 1) } else s),
     false, true⟩
  else if s.mode = .search then
    if ch = 263 ∨ ch = 127 then
      ⟨_draw_ui now (_filter_items { s with search_query := pyDropLast s.search_query }), false, true⟩
    else if 32 ≤ ch ∧ ch ≤ 126 then
      ⟨_draw_ui now (_filter_items
          { s with search_query := s.search_query.push (Char.ofNat ch.toNat) }), false, true⟩
    else ⟨_draw_ui now s, false, true⟩
  else ⟨s, false, false⟩

/-- Iterated `_handle_input` over a list of key codes (the main loop of
`MainWindow.run`, ui.py lines 199-202, with a fixed clock and lock oracle). -/
def run_keys (lockOk : Bool) (now : Time) (keys : List Int) (s : UIState) : UIState :=
  keys.foldl (fun st ch => (_handle_input lockOk now ch st).state) s

/-- From the spec's words (§3, §8): case-insensitive substring containment of
`q` in `hay`. -/
def ciContains (hay q : String) : Bool :=
  strHas (pyLower q.data) (pyLower hay.data)

/-- From the spec's words (claim C6): an item matches iff its name or its
login username contains the query as a case-insensitive substring (an item
with no login, or a login with no username, has no username to match). -/
def specMatches (q : String) (item : VaultItem) : Bool :=
  ciContains (item.name.getD ("")) q ||
    (match item.login with
     | some l =>
       (match l.username with
        | some u => ciContains u q
        | none => false)
     | none => false)

/-- The selection invariant of claim C7: whenever the filtered list is
non-empty, `current_selection` lies in `[0, len(filtered) - 1]`. -/
def SelInv (s : UIState) : Prop :=
  s.filtered_items ≠ [] →
    0 ≤ s.current_selection ∧
      s.current_selection ≤ (s.filtered_items.length : Int) - 1

/-- A vault item mirroring the spec §8 example `{name: "GitHub",
login: {username: "alice"}}`. -/
def ghItem : VaultItem := ⟨some ("GitHub"), some ⟨some ("alice"), some ("pw1")⟩⟩

/-- A vault item mirroring the spec §8 example `{name: "AWS",
login: {username: "bob"}}`. -/
def awsItem : VaultItem := ⟨some ("AWS"), some ⟨some ("bob"), some ("pw2")⟩⟩

/-- A browse-mode state with no items, used as a concrete input. -/
def emptyBrowseState : UIState := ⟨[], [], 0, "", .browse, "", 0, 0⟩

/-- A browse-mode state carrying a status message issued at time 0, used as a
concrete input at a later clock value. -/
def staleStatusState : UIState := ⟨[], [], 0, "", .browse, "stale", 3, 0⟩

/-- A search-mode state with the two example items and a stale selection,
used as a concrete input. -/
def searchModeState : UIState :=
  ⟨[ghItem, awsItem], [ghItem, awsItem], 7, "", .search, "", 0, 0⟩

/-- A browse-mode state with the two example items and empty query, used as a
concrete input. -/
def twoItemState : UIState :=
  ⟨[ghItem, awsItem], [ghItem, awsItem], 0, "", .browse, "", 0, 0⟩

/-! ### C1 — lock clears the local session -/

/-- C1: the claim fails on the code.  With a fresh valid session cached in
memory and on disk, a `lock()` call whose `bw lock` subcommand exits non-zero
(`subOk = false`) takes the `CalledProcessError` branch of
`BitwardenCLI.lock`, which returns `False` without calling `clear_session`:
the in-memory key and the on-disk record are both retained, and a subsequent
`_load_session` (at the same time, well within the TTL) still returns the
session.  (The unused sibling `lock_vault` clears the session in both
branches, matching the stated policy.) -/
theorem c1_lock_failure_keeps_session :
    lock false ⟨some ("k"), ⟨some (.record (some ("k")) (.num 0))⟩⟩ =
      (false, ⟨some ("k"), ⟨some (.record (some ("k")) (.num 0))⟩⟩) ∧
    _load_session 0 ⟨some (.record (some ("k")) (.num 0))⟩ =
      .ok ⟨some ("k"), ⟨some (.record (some ("k")) (.num 0))⟩⟩ ∧
    lock_vault false ⟨some ("k"), ⟨some (.record (some ("k")) (.num 0))⟩⟩ =
      (true, ⟨none, ⟨none⟩⟩) := by
  decide

/-! ### C2 — load() on expired or malformed records -/

/-- C2, counterexample: a session file holding valid JSON that is not an
object (e.g. the file content `[1, 2]`) is malformed, yet `_load_session`
neither returns none nor deletes it: `session_data.get('session_key')` raises
an `AttributeError` that the `except (JSONDecodeError, KeyError, OSError)`
clause does not catch, so the constructor crashes and the bad file stays in
place, blocking future logins until removed by hand. -/
theorem c2_nondict_file_crashes_load :
    _load_session 0 ⟨some .nonDict⟩ = .crash := by
  decide

/-- C2, amended: for records with a numeric timestamp, `_load_session`
returns none and deletes the file whenever `now - issuedAt ≥ TTL`, regardless
of token content; a file that fails JSON decoding (or OS-level reading) is
likewise dropped with the file deleted.  (Self-healing does not extend to
files that decode to a non-object or to an object with a non-numeric
timestamp: those raise uncaught errors, see the counterexample.) -/
theorem c2_expired_or_unparsable_selfheals (now t : Time) (key : Option String)
    (hexp : now - t ≥ SESSION_TIMEOUT) :
    _load_session now ⟨some (.record key (.num t))⟩ = .ok ⟨none, ⟨none⟩⟩ ∧
    _load_session now ⟨some .badParse⟩ = .ok ⟨none, ⟨none⟩⟩ := by
  refine ⟨?_, rfl⟩
  have h : ¬(now - t < SESSION_TIMEOUT ∧ truthy key = true) := by
    rintro ⟨h1, -⟩
    exact absurd h1 (not_lt.mpr hexp)
  simp only [_load_session, _cleanup_session_file, if_neg h]

/-- C2, witness for the amended theorem at a concrete expired record. -/
theorem c2_expired_witness :
    _load_session 600 ⟨some (.record (some ("tok")) (.num 0))⟩ = .ok ⟨none, ⟨none⟩⟩ ∧
    _load_session 600 ⟨some .badParse⟩ = .ok ⟨none, ⟨none⟩⟩ :=
  c2_expired_or_unparsable_selfheals 600 0 (some ("tok")) (by decide)

/-! ### C3 — save/load round-trip -/

/-- C3, counterexample: the claim quantifies over every token string, but for
the empty token `""` the round-trip fails: `_save_session` writes the record,
yet `_load_session` tests `... and session_key:`, and `""` is falsy in
Python, so the record is discarded (and deleted) and no session is returned.
-/
theorem c3_empty_token_not_roundtripped :
    _load_session 0 (_save_session 0 "" ⟨none, ⟨none⟩⟩).store = .ok ⟨none, ⟨none⟩⟩ := by
  decide

/-- C3, amended: for every **non-empty** token, `save(token)` followed by
`load()` with elapsed time strictly less than the TTL returns a session whose
token equals the saved token (and leaves the record in place). -/
theorem c3_save_load_roundtrip (k : String) (tSave tLoad : Time) (c : Client)
    (hk : k ≠ "") (h : tLoad - tSave < SESSION_TIMEOUT) :
    _load_session tLoad (_save_session tSave k c).store =
      .ok ⟨some k, (_save_session tSave k c).store⟩ := by
  have hcond : tLoad - tSave < SESSION_TIMEOUT ∧ truthy (some k) = true := by
    refine ⟨h, ?_⟩
    simp [truthy, hk]
  simp only [_save_session, _load_session, if_pos hcond]

/-- C3, witness for the amended round-trip at a concrete non-empty token. -/
theorem c3_roundtrip_witness :
    _load_session 1 (_save_session 0 "abc" ⟨none, ⟨none⟩⟩).store =
      .ok ⟨some ("abc"), (_save_session 0 "abc" ⟨none, ⟨none⟩⟩).store⟩ :=
  c3_save_load_roundtrip ("abc") 0 1 ⟨none, ⟨none⟩⟩ (by decide) (by decide)

/-! ### C4 — is_unlocked short-circuit -/

/-- C4: the claim fails on the code.  `is_unlocked` performs no TTL check: it
short-circuits on the mere truthiness of `self._session_key`.  Concretely, a
session issued and loaded at time 0 is no longer valid at time 600
(`now - issuedAt ≥ TTL`, so per the claim the session is Absent and the
status query — here reporting `"locked"` — should drive the answer), yet the
code returns `True` without any subprocess call. -/
theorem c4_no_ttl_check_at_is_unlocked :
    _load_session 0 ⟨some (.record (some ("k")) (.num 0))⟩ =
      .ok ⟨some ("k"), ⟨some (.record (some ("k")) (.num 0))⟩⟩ ∧
    validSession ("k") 0 600 = false ∧
    is_unlocked ⟨some ("k"), ⟨some (.record (some ("k")) (.num 0))⟩⟩ (.parsed (some ("locked"))) =
      (true, false) := by
  decide

/-- C4, amended: `is_unlocked` short-circuits to true with no subprocess call
exactly when the in-memory session key is present and non-empty (no TTL
re-check happens at this point; expiry is enforced only when loading from
disk); otherwise it performs the status query and returns true iff the parsed
status field is exactly `"unlocked"`, with invocation or parse failure and
any other status yielding false. -/
theorem c4_is_unlocked_behaviour (c : Client) (st : StatusOutcome) :
    (truthy c.sessionKey = true → is_unlocked c st = (true, false)) ∧
    (truthy c.sessionKey = false →
      (is_unlocked c st).2 = true ∧
      ((is_unlocked c st).1 = true ↔ st = .parsed (some ("unlocked")))) := by
  constructor
  · intro h
    simp [is_unlocked, h]
  · intro h
    cases st <;> simp [is_unlocked, h]

/-- C4, witness: the amended behaviour at a truthy cached key (short-circuit,
no subprocess) and at an absent key with a failing status query. -/
theorem c4_behaviour_witness :
    is_unlocked ⟨some ("k"), ⟨none⟩⟩ .fail = (true, false) ∧
    (is_unlocked ⟨none, ⟨none⟩⟩ .fail).2 = true :=
  ⟨(c4_is_unlocked_behaviour ⟨some ("k"), ⟨none⟩⟩ .fail).1 (by decide),
   ((c4_is_unlocked_behaviour ⟨none, ⟨none⟩⟩ .fail).2 (by decide)).1⟩

/-! ### C5 — clipboard fallback chain -/

/-- Behaviour of the `for method in methods` loop over an arbitrary remaining
chain: the result is true iff some mechanism in the chain succeeds; the
attempted mechanisms form an initial segment of the chain; every attempted
mechanism except the last failed (its failure was swallowed and the loop went
on); on success the last attempted mechanism is the succeeding one; on
exhaustion every mechanism was attempted and failed. -/
theorem tryChain_behaviour (outcome : Mechanism → MechResult) (l : List Mechanism) :
    ((tryChain outcome l).1 = true ↔ ∃ m ∈ l, outcome m = .success) ∧
    (∃ n, (tryChain outcome l).2 = l.take n) ∧
    (∀ m ∈ (tryChain outcome l).2.dropLast, outcome m ≠ .success) ∧
    ((tryChain outcome l).1 = true →
      ∃ m, (tryChain outcome l).2.getLast? = some m ∧ outcome m = .success) ∧
    ((tryChain outcome l).1 = false →
      (tryChain outcome l).2 = l ∧ ∀ m ∈ l, outcome m ≠ .success) := by
  induction l with
  | nil => simp [tryChain]
  | cons m rest ih =>
    by_cases h : outcome m = .success
    · refine ⟨?_, ⟨1, ?_⟩, ?_, ?_, ?_⟩ <;> simp [tryChain, h]
    · obtain ⟨iha, ⟨n, ihb⟩, ihc, ihd, ihe⟩ := ih
      refine ⟨?_, ⟨n + 1, ?_⟩, ?_, ?_, ?_⟩
      · simp only [tryChain, if_neg h]
        rw [iha]
        simp [h]
      · simp only [tryChain, if_neg h, List.take_succ_cons, ihb]
      · simp only [tryChain, if_neg h]
        intro x hx
        rcases hr : (tryChain outcome rest).2 with - | ⟨y, ys⟩
        · rw [hr] at hx
          simp at hx
        · rw [hr] at hx
          rw [List.dropLast_cons₂] at hx
          rcases List.mem_cons.mp hx with rfl | hx'
          · exact h
          · exact ihc x (by rw [hr]; exact hx')
      · simp only [tryChain, if_neg h]
        intro htrue
        obtain ⟨w, hw, hws⟩ := ihd htrue
        refine ⟨w, ?_, hws⟩
        rcases hr : (tryChain outcome rest).2 with - | ⟨y, ys⟩
        · rw [hr] at hw
          simp at hw
        · rw [hr] at hw
          rw [List.getLast?_cons_cons]
          exact hw
      · simp only [tryChain, if_neg h]
        intro hfalse
        obtain ⟨he1, he2⟩ := ihe hfalse
        refine ⟨by rw [he1], ?_⟩
        intro x hx
        rcases List.mem_cons.mp hx with rfl | hx'
        · exact h
        · exact he2 x hx'

/-- C5: for every environment (a fixed outcome per mechanism; the secret text
does not influence control flow), `copy_to_clipboard` tries the fixed ordered
chain pyperclip, xclip, xsel, wl-copy, termux-clipboard-set: it returns true
iff some mechanism succeeds, the attempted mechanisms are an initial segment
of that chain, every attempted mechanism before the last one failed with the
failure swallowed, on success the last attempted mechanism is the first
succeeding one (no further mechanisms are attempted), and false is returned
only when all five mechanisms were attempted and failed. -/
theorem c5_clipboard_chain (outcome : Mechanism → MechResult) :
    ((copy_to_clipboard outcome).1 = true ↔ ∃ m ∈ methods, outcome m = .success) ∧
    (∃ n, (copy_to_clipboard outcome).2 = methods.take n) ∧
    (∀ m ∈ (copy_to_clipboard outcome).2.dropLast, outcome m ≠ .success) ∧
    ((copy_to_clipboard outcome).1 = true →
      ∃ m, (copy_to_clipboard outcome).2.getLast? = some m ∧ outcome m = .success) ∧
    ((copy_to_clipboard outcome).1 = false →
      (copy_to_clipboard outcome).2 = methods ∧ ∀ m ∈ methods, outcome m ≠ .success) :=
  tryChain_behaviour outcome methods

/-- C5, witness: an environment where pyperclip and xclip fail and xsel
succeeds, and one where everything fails. -/
theorem c5_chain_witness :
    (∃ m, (copy_to_clipboard fun m => if m = .xsel then .success else .failFalse).2.getLast? =
        some m ∧ (fun m => if m = .xsel then (MechResult.success) else .failFalse) m = .success) ∧
    ((copy_to_clipboard fun _ => MechResult.failRaise).2 = methods ∧
      ∀ m ∈ methods, (fun _ => MechResult.failRaise) m ≠ .success) ∧
    (fun m => if m = .xsel then (MechResult.success) else .failFalse) Mechanism.pyperclip ≠
      .success :=
  ⟨(c5_clipboard_chain fun m => if m = .xsel then .success else .failFalse).2.2.2.1 (by decide),
   (c5_clipboard_chain fun _ => MechResult.failRaise).2.2.2.2 (by decide),
   (c5_clipboard_chain fun m => if m = .xsel then .success else .failFalse).2.2.1
     Mechanism.pyperclip (by decide)⟩

/-! ### C6 — filter recomputation -/

/-- The empty needle is found in every haystack (Python `hay.find("") = 0`). -/
theorem strHas_nil_needle (hay : List Char) : strHas [] hay = true := by
  cases hay <;> simp [strHas, List.isPrefixOf]

/-- A non-empty needle is never found in the empty haystack. -/
theorem strHas_nil_hay (needle : List Char) (h : needle ≠ []) :
    strHas needle [] = false := by
  cases needle with
  | nil => exact absurd rfl h
  | cons c cs => rfl

/-- Lowercasing a non-empty query string gives a non-empty character list. -/
theorem pyLower_ne_nil (q : String) (hq : q ≠ "") : pyLower q.data ≠ [] := by
  intro hcon
  apply hq
  cases q with
  | mk l =>
    cases l with
    | nil => rfl
    | cons c cs => simp [pyLower] at hcon

/-- For a non-empty query, the comprehension test of `_filter_items` agrees
with the spec's matching predicate. -/
theorem itemMatches_eq_specMatches (q : String) (hq : q ≠ "") (it : VaultItem) :
    itemMatches (pyLower q.data) it = specMatches q it := by
  obtain ⟨nm, lg⟩ := it
  cases lg with
  | none => rfl
  | some l =>
    obtain ⟨un, pw⟩ := l
    cases un with
    | none =>
      show (_ || strHas (pyLower q.data) (pyLower ("" : String).data)) = (_ || false)
      rw [show pyLower ("" : String).data = [] from rfl]
      rw [strHas_nil_hay _ (pyLower_ne_nil q hq)]
      rfl
    | some u => rfl

/-- C6: for every state, `_filter_items` computes exactly the subsequence of
`items` (original order preserved, witnessed by the sublist relation) whose
name or login username contains the query as a case-insensitive substring,
and the full item list when the query is empty. -/
theorem c6_filter_is_ci_substring_subsequence (s : UIState) :
    (_filter_items s).filtered_items = s.items.filter (specMatches s.search_query) ∧
    List.Sublist (_filter_items s).filtered_items s.items ∧
    (s.search_query = "" → (_filter_items s).filtered_items = s.items) := by
  by_cases hq : s.search_query = ""
  · have hall : s.items.filter (specMatches s.search_query) = s.items := by
      rw [List.filter_eq_self]
      intro a _
      rw [hq]
      unfold specMatches ciContains
      rw [show pyLower ("" : String).data = [] from rfl]
      simp [strHas_nil_needle]
    have e : (_filter_items s).filtered_items = s.items := by
      simp only [_filter_items, if_pos hq]
    refine ⟨?_, ?_, fun _ => e⟩
    · rw [e]
      exact hall.symm
    · rw [e]
  · have hpt : ∀ a ∈ s.items,
        itemMatches (pyLower s.search_query.data) a = specMatches s.search_query a :=
      fun a _ => itemMatches_eq_specMatches _ hq a
    refine ⟨?_, ?_, fun hc => absurd hc hq⟩
    · simp only [_filter_items, if_neg hq]
      exact List.filter_congr hpt
    · simp only [_filter_items, if_neg hq]
      exact List.filter_sublist s.items

/-- C6, witness: with the two spec-example items, the empty query keeps both
items, and a state with query `"git"` produces the filter of the spec
predicate. -/
theorem c6_filter_witness :
    (_filter_items twoItemState).filtered_items = twoItemState.items ∧
    (_filter_items { twoItemState with search_query := "git" }).filtered_items =
      twoItemState.items.filter (specMatches ("git")) :=
  ⟨(c6_filter_is_ci_substring_subsequence twoItemState).2.2 rfl,
   (c6_filter_is_ci_substring_subsequence { twoItemState with search_query := "git" }).1⟩

/-! ### C7 — selection stays in bounds -/

/-- Drawing does not change the filtered list. -/
theorem draw_ui_filtered_items (now : Time) (s : UIState) :
    (_draw_ui now s).filtered_items = s.filtered_items := by
  unfold _draw_ui _draw_status
  split_ifs <;> rfl

/-- Drawing does not change the selection. -/
theorem draw_ui_current_selection (now : Time) (s : UIState) :
    (_draw_ui now s).current_selection = s.current_selection := by
  unfold _draw_ui _draw_status
  split_ifs <;> rfl

/-- Drawing preserves the selection invariant. -/
theorem selInv_draw_ui (now : Time) (s : UIState) (h : SelInv s) :
    SelInv (_draw_ui now s) := by
  unfold SelInv
  rw [draw_ui_filtered_items, draw_ui_current_selection]
  exact h

/-- Recomputing the filter resets the selection to 0 (in both branches of
`_filter_items`). -/
theorem filter_items_current_selection (s : UIState) :
    (_filter_items s).current_selection = 0 := by
  unfold _filter_items
  split_ifs <;> rfl

/-- Recomputing the filter establishes the selection invariant from scratch
(the selection is reset to 0). -/
theorem selInv_filter_items (s : UIState) : SelInv (_filter_items s) := by
  intro hne
  have hpos := List.length_pos.mpr hne
  rw [filter_items_current_selection]
  refine ⟨le_refl 0, ?_⟩
  omega

/-- A state differing only in fields other than `filtered_items` and
`current_selection` satisfies the invariant whenever the original does. -/
theorem selInv_of_fields (s t : UIState)
    (hf : t.filtered_items = s.filtered_items)
    (hc : t.current_selection = s.current_selection)
    (h : SelInv s) : SelInv t := by
  unfold SelInv
  rw [hf, hc]
  exact h

/-- One `_handle_input` dispatch preserves the selection invariant. -/
theorem handle_input_selInv (lockOk : Bool) (now : Time) (ch : Int) (s : UIState)
    (h : SelInv s) : SelInv ((_handle_input lockOk now ch s).state) := by
  unfold _handle_input
  by_cases g1 : ch = -1
  · rw [if_pos g1]
    exact h
  rw [if_neg g1]
  by_cases g2 : ch = 113 ∧ s.mode ≠ Mode.search
  · rw [if_pos g2]
    exact h
  rw [if_neg g2]
  by_cases g3 : ch = 27
  · rw [if_pos g3]
    exact selInv_draw_ui now _ (selInv_filter_items _)
  rw [if_neg g3]
  by_cases g4 : ch = 115 ∨ ch = 47
  · rw [if_pos g4]
    exact selInv_draw_ui now _ (selInv_of_fields s _ rfl rfl h)
  rw [if_neg g4]
  by_cases g5 : ch = 99 ∨ ch = 343 ∨ ch = 10
  · rw [if_pos g5]
    exact selInv_draw_ui now _ h
  rw [if_neg g5]
  by_cases g6 : ch = 108
  · rw [if_pos g6]
    cases lockOk with
    | false =>
      rw [if_neg (by simp)]
      exact selInv_draw_ui now _ (selInv_of_fields s _ rfl rfl h)
    | true =>
      rw [if_pos rfl]
      exact selInv_of_fields s _ rfl rfl h
  rw [if_neg g6]
  by_cases g7 : ch = 259
  · rw [if_pos g7]
    refine selInv_draw_ui now _ ?_
    by_cases hne : s.filtered_items ≠ []
    · rw [if_pos hne]
      obtain ⟨h0, h1⟩ := h hne
      intro _
      refine ⟨?_, ?_⟩
      · show (0 : Int) ≤ max 0 (s.current_selection - 1)
        exact le_max_left 0 _
      · show max 0 (s.current_selection - 1) ≤ (s.filtered_items.length : Int) - 1
        exact max_le (by have := List.length_pos.mpr hne; omega) (by omega)
    · rw [if_neg hne]
      exact h
  rw [if_neg g7]
  by_cases g8 : ch = 258
  · rw [if_pos g8]
    refine selInv_draw_ui now _ ?_
    by_cases hne : s.filtered_items ≠ []
    · rw [if_pos hne]
      obtain ⟨h0, h1⟩ := h hne
      intro _
      refine ⟨?_, ?_⟩
      · show (0 : Int) ≤ min ((s.filtered_items.length : Int) - 1) (s.current_selection + 1)
        exact le_min (by have := List.length_pos.mpr hne; omega) (by omega)
      · show min ((s.filtered_items.length : Int) - 1) (s.current_selection + 1) ≤
            (s.filtered_items.length : Int) - 1
        exact min_le_left _ _
    · rw [if_neg hne]
      exact h
  rw [if_neg g8]
  by_cases g9 : s.mode = Mode.search
  · rw [if_pos g9]
    by_cases g10 : ch = 263 ∨ ch = 127
    · rw [if_pos g10]
      exact selInv_draw_ui now _ (selInv_filter_items _)
    rw [if_neg g10]
    by_cases g11 : 32 ≤ ch ∧ ch ≤ 126
    · rw [if_pos g11]
      exact selInv_draw_ui now _ (selInv_filter_items _)
    · rw [if_neg g11]
      exact selInv_draw_ui now _ h
  · rw [if_neg g9]
    exact h

/-- C7: starting from any state satisfying the selection invariant, any
sequence of key events (up/down moves, filter recomputations, and everything
else `_handle_input` dispatches) keeps `current_selection` within
`[0, len(filtered)-1]` whenever the filtered list is non-empty; and when the
filtered list is empty, up/down leave the selection untouched and the copy
action hands nothing to the clipboard (a no-op, not an error). -/
theorem c7_selection_in_bounds (lockOk : Bool) (now : Time) (keys : List Int)
    (s : UIState) (h : SelInv s) :
    SelInv (run_keys lockOk now keys s) ∧
    (s.filtered_items = [] →
      (_handle_input lockOk now 259 s).state.current_selection = s.current_selection ∧
      (_handle_input lockOk now 258 s).state.current_selection = s.current_selection ∧
      _copy_password s = none) := by
  constructor
  · induction keys generalizing s with
    | nil => exact h
    | cons k ks ih => exact ih _ (handle_input_selInv lockOk now k s h)
  · intro hemp
    refine ⟨?_, ?_, ?_⟩
    · simp [_handle_input, hemp, draw_ui_current_selection]
    · simp [_handle_input, hemp, draw_ui_current_selection]
    · simp [_copy_password, hemp]

/-- C7, witness: from an empty-vault browse state (which satisfies the
invariant vacuously), a run of up/down/escape keys keeps the invariant, and
the empty filtered list makes movement and copy no-ops. -/
theorem c7_bounds_witness :
    SelInv (run_keys true 0 [259, 258, 27] emptyBrowseState) ∧
    (_handle_input true 0 259 emptyBrowseState).state.current_selection =
        emptyBrowseState.current_selection ∧
    (_handle_input true 0 258 emptyBrowseState).state.current_selection =
        emptyBrowseState.current_selection ∧
    _copy_password emptyBrowseState = none :=
  ⟨(c7_selection_in_bounds true 0 [259, 258, 27] emptyBrowseState
      (fun hne => absurd rfl hne)).1,
   (c7_selection_in_bounds true 0 [259, 258, 27] emptyBrowseState
      (fun hne => absurd rfl hne)).2 rfl⟩

/-! ### C8 — the lock key -/

/-- C8: the claim fails on the code.  With the lock subcommand reporting
failure (`lock()` returns `False`), the handler takes the `else` branch: it
sets the error status message but raises no `KeyboardInterrupt`, so the
interactive loop continues instead of terminating. -/
theorem c8_lock_failure_does_not_quit :
    (_handle_input false 0 108 emptyBrowseState).quit = false ∧
    (_handle_input false 0 108 emptyBrowseState).state.status_message =
      "Failed to lock vault" := by
  decide

/-- Drawing right after a status message was stamped with the current time
leaves the message in place (the 3-second expiry has not elapsed). -/
theorem draw_ui_status_message_fresh (now : Time) (s : UIState)
    (h : s.status_message_time = now) :
    (_draw_ui now s).status_message = s.status_message := by
  unfold _draw_ui _draw_status
  split_ifs with hcond
  · exfalso
    obtain ⟨-, h2⟩ := hcond
    rw [h, sub_self] at h2
    exact absurd h2 (by decide)
  · rfl

/-- C8, amended: pressing the lock key always invokes the Vault Client lock
operation and sets a status message (success message on success, error
message on failure), but terminates the interactive loop (raises
`KeyboardInterrupt`) exactly when `lock()` reported success; on failure the
loop continues with the error status shown. -/
theorem c8_lock_key_behaviour (lockOk : Bool) (now : Time) (s : UIState) :
    (_handle_input lockOk now 108 s).quit = lockOk ∧
    (_handle_input lockOk now 108 s).state.status_message =
      (if lockOk then ("Vault locked successfully - exiting") else ("Failed to lock vault")) := by
  have e0 : ∀ b : Bool, (_handle_input b now 108 s : InputResult) =
      ite (b = true)
        (InputResult.mk { s with status_message := "Vault locked successfully - exiting", status_color := 2, status_message_time := now } true false)
        (InputResult.mk (_draw_ui now { s with status_message := "Failed to lock vault", status_color := 3, status_message_time := now }) false true) := by
    intro b
    unfold _handle_input
    rw [if_neg (by decide), if_neg (fun hcon => absurd hcon.1 (by decide)),
        if_neg (by decide), if_neg (by decide), if_neg (by decide), if_pos rfl]
  cases lockOk with
  | false =>
    rw [e0 false]
    exact ⟨rfl, draw_ui_status_message_fresh now _ rfl⟩
  | true =>
    rw [e0 true]
    exact ⟨rfl, rfl⟩

/-! ### C9 — status expiry and input timeouts -/

/-- C9: the claim fails on the code.  A state carries a status message issued
at time 0; at time 10 the 3-second display duration has long elapsed, yet the
loop iteration that reads a timeout (`getch() = -1`) returns immediately
(`if ch == -1: return`) with no redraw, leaving the expired message exactly
in place: clearing waits for a later key press that triggers `_draw_ui`. -/
theorem c9_timeout_does_not_clear_status :
    _handle_input true 10 (-1) staleStatusState = ⟨staleStatusState, false, false⟩ ∧
    staleStatusState.status_message ≠ "" ∧
    (10 : Int) - staleStatusState.status_message_time > 3 := by
  decide

/-- C9, amended: an input-read timeout returns without redrawing and leaves
the state (in particular an expired status message) untouched; the 3-second
expiry check lives in `_draw_status` and so an expired message is cleared
only when a subsequent dispatch leads to a redraw. -/
theorem c9_status_cleared_only_at_redraw (lockOk : Bool) (now : Time) (s : UIState)
    (hmsg : s.status_message ≠ "") (hexp : now - s.status_message_time > 3) :
    _handle_input lockOk now (-1) s = ⟨s, false, false⟩ ∧
    (_draw_status now s).status_message = "" := by
  constructor
  · unfold _handle_input
    rw [if_pos rfl]
  · unfold _draw_status
    rw [if_pos ⟨hmsg, hexp⟩]

/-- C9, witness for the amended theorem at the concrete stale state. -/
theorem c9_redraw_witness :
    _handle_input true 10 (-1) staleStatusState = ⟨staleStatusState, false, false⟩ ∧
    (_draw_status 10 staleStatusState).status_message = "" :=
  c9_status_cleared_only_at_redraw true 10 staleStatusState (by decide) (by decide)

/-! ### C10 — selection reset to 0 on filter recomputation -/

/-- C10: every filter recomputation — the initial item load, the ESC clear,
a backspace in search mode, and any printable character appended to the query
in search mode (printables bound to global actions: `s`, `/`, `c`, `l` are
intercepted earlier and do not edit the query) — resets `current_selection`
to exactly 0, regardless of its previous value. -/
theorem c10_filter_resets_selection (lockOk : Bool) (now : Time) (s : UIState)
    (items : List VaultItem) (ch : Int) :
    (_filter_items s).current_selection = 0 ∧
    (_load_items items s).current_selection = 0 ∧
    (_handle_input lockOk now 27 s).state.current_selection = 0 ∧
    (s.mode = Mode.search → (_handle_input lockOk now 263 s).state.current_selection = 0) ∧
    (s.mode = Mode.search → 32 ≤ ch → ch ≤ 126 →
      ch ≠ 115 → ch ≠ 47 → ch ≠ 99 → ch ≠ 108 →
      (_handle_input lockOk now ch s).state.current_selection = 0) := by
  refine ⟨filter_items_current_selection s, rfl, ?_, ?_, ?_⟩
  · have e : (_handle_input lockOk now 27 s).state =
        _draw_ui now (_filter_items { s with search_query := "", mode := Mode.browse }) := by
      unfold _handle_input
      rw [if_neg (by decide), if_neg (fun hcon => absurd hcon.1 (by decide)), if_pos rfl]
    rw [e, draw_ui_current_selection, filter_items_current_selection]
  · intro hm
    have e : (_handle_input lockOk now 263 s).state =
        _draw_ui now (_filter_items { s with search_query := pyDropLast s.search_query }) := by
      unfold _handle_input
      rw [if_neg (by decide), if_neg (fun hcon => hcon.2 hm),
          if_neg (by decide), if_neg (by decide), if_neg (by decide), if_neg (by decide),
          if_neg (by decide), if_neg (by decide), if_pos hm, if_pos (Or.inl rfl)]
    rw [e, draw_ui_current_selection, filter_items_current_selection]
  · intro hm h32 h126 hs hsl hc hl
    have e : (_handle_input lockOk now ch s).state =
        _draw_ui now (_filter_items
          { s with search_query := s.search_query.push (Char.ofNat ch.toNat) }) := by
      unfold _handle_input
      rw [if_neg (by omega), if_neg (fun hcon => hcon.2 hm), if_neg (by omega),
          if_neg (by omega), if_neg (by omega), if_neg (by omega), if_neg (by omega),
          if_neg (by omega), if_pos hm, if_neg (by omega), if_pos ⟨h32, h126⟩]
    rw [e, draw_ui_current_selection, filter_items_current_selection]

/-- C10, witness: from a search-mode state with a stale selection of 7,
typing `a` (code 97) and pressing backspace (code 263) both land at
selection 0. -/
theorem c10_reset_witness :
    (_handle_input false 0 97 searchModeState).state.current_selection = 0 ∧
    (_handle_input false 0 263 searchModeState).state.current_selection = 0 :=
  ⟨(c10_filter_resets_selection false 0 searchModeState [] 97).2.2.2.2 rfl (by decide)
      (by decide) (by decide) (by decide) (by decide) (by decide),
   (c10_filter_resets_selection false 0 searchModeState [] 97).2.2.2.1 rfl⟩

end BwTui
